import Mathlib

/-!
Verification of the build-script patcher of FlutLock
(`src/flutter_signer/core/gradle.py`, function `update_app_build_gradle`).

Text is modelled as a list of characters.  The handful of regular
expressions used by the source are each effectively deterministic
(greedy star over a character class followed by a character outside
that class), so each one is embedded as a dedicated scanning function
with exactly that semantics.  File-system effects are modelled by an
explicit environment (which directories/files exist, whether a read or
a write fails) and a trace of attempted file operations.
-/

set_option maxRecDepth 8000

abbrev Text := List Char

/-- The opening-brace character (written numerically throughout). -/
def obr : Char := Char.ofNat 123

/-- The closing-brace character. -/
def cbr : Char := Char.ofNat 125

/-- The single-quote character. -/
def squote : Char := Char.ofNat 39

/-- The double-quote character. -/
def dquote : Char := Char.ofNat 34

/-- Python regex `\s` on the ASCII range: space, tab, newline,
carriage return, vertical tab, form feed. -/
def isPySpace (c : Char) : Bool :=
  c == ' ' || c == '\t' || c == '\n' || c == '\r' || c == '\x0b' || c == '\x0c'

/-- The character class of the regex fragment `["']`. -/
def isQuote (c : Char) : Bool :=
  c == dquote || c == squote

/-- Python `needle in hay` on strings: substring containment. -/
def containsSub : Text → Text → Bool
  | needle, [] => needle.isEmpty
  | needle, c :: t => needle.isPrefixOf (c :: t) || containsSub needle t

/-- Number of (possibly overlapping) occurrences of `needle`. -/
def countOccur : Text → Text → Nat
  | _, [] => 0
  | needle, c :: t =>
    (if needle.isPrefixOf (c :: t) then 1 else 0) + countOccur needle t

/-- Consume the literal `s` at the head of the input. -/
def eatStr (s t : Text) : Option Text :=
  if s.isPrefixOf t then some (t.drop s.length) else none

/-- Consume one character satisfying `p` at the head of the input. -/
def eatChar (p : Char → Bool) : Text → Option Text
  | [] => none
  | c :: t => if p c then some t else none

/-- Consume the maximal run of `\s` characters (greedy `\s*`). -/
def eatWs (t : Text) : Text := t.dropWhile isPySpace

/-- Match `kw` followed by `\s*` and an opening brace at the head of
the input; on success return the rest of the input after the brace.
In every use below the character right after the greedy `\s*` run must
be a non-space character, so the greedy scan is equivalent to the
backtracking regex. -/
def matchKwOpenRest (kw : Text) (t : Text) : Option Text :=
  (eatStr kw t).bind fun t1 => eatChar (fun c => c == obr) (eatWs t1)

/-- Length of the match of `kw ++ \s* ++ brace` at the head of the input. -/
def matchKwBraceLen (kw : Text) (t : Text) : Option Nat :=
  (matchKwOpenRest kw t).map (fun r => t.length - r.length)

example : matchKwBraceLen ("android".data) ("android  \x7brest".data) = some 10 := by rfl
example : matchKwBraceLen ("android".data) ("androidx \x7b".data) = none := by rfl

/-- `re.search(r"android\s*\{", text)`: index scan for the leftmost
match, returning `match.end()` (the only datum gradle.py uses). -/
def searchAndroidEndAux (i : Nat) : Text → Option Nat
  | [] => none
  | c :: t =>
    match matchKwBraceLen ("android".data) (c :: t) with
    | some k => some (i + k)
    | none => searchAndroidEndAux (i + 1) t

/-- `match.end()` of `re.search(r"android\s*\{", text)` (gradle.py line 218). -/
def searchAndroidEnd (t : Text) : Option Nat := searchAndroidEndAux 0 t

/-- Match of `release\s*\{([^}]*)\}` at the head of the input,
returning group 1 (the only datum gradle.py uses).  The greedy
`[^}]*` runs to the character before the first closing brace, which
must exist. -/
def matchReleaseAt (t : Text) : Option Text :=
  (matchKwOpenRest ("release".data) t).bind fun r =>
  let g1 := r.takeWhile (fun c => c != cbr)
  (eatChar (fun c => c == cbr) (r.drop g1.length)).map (fun _ => g1)

/-- `re.search(r"release\s*\{([^}]*)\}", text)`, returning group 1 of
the leftmost match (gradle.py line 238). -/
def searchRelease : Text → Option Text
  | [] => none
  | c :: t =>
    match matchReleaseAt (c :: t) with
    | some g1 => some g1
    | none => searchRelease t

/-- Match of `getByName\s*\(\s*["']release["']\s*\)\s*\{([^}]*)\}` at
the head of the input, returning group 1.  The two quote classes are
independent in the source pattern, so mismatched quotes are accepted
here as well. -/
def matchGetByNameAt (t : Text) : Option Text :=
  (eatStr ("getByName".data) t).bind fun t1 =>
  (eatChar (fun c => c == '(') (eatWs t1)).bind fun t2 =>
  (eatChar isQuote (eatWs t2)).bind fun t3 =>
  (eatStr ("release".data) t3).bind fun t4 =>
  (eatChar isQuote t4).bind fun t5 =>
  (eatChar (fun c => c == ')') (eatWs t5)).bind fun t6 =>
  (eatChar (fun c => c == obr) (eatWs t6)).bind fun t7 =>
  let g1 := t7.takeWhile (fun c => c != cbr)
  (eatChar (fun c => c == cbr) (t7.drop g1.length)).map (fun _ => g1)

/-- Leftmost match of the `getByName` variant pattern (gradle.py line 270). -/
def searchGetByName : Text → Option Text
  | [] => none
  | c :: t =>
    match matchGetByNameAt (c :: t) with
    | some g1 => some g1
    | none => searchGetByName t

/-- Match of `signingConfig\s*=\s*signingConfigs\.getByName\(["']debug["']\)`
at the head of the input; on success the rest of the input. -/
def matchDebugKtsRest (t : Text) : Option Text :=
  (eatStr ("signingConfig".data) t).bind fun t1 =>
  (eatChar (fun c => c == '=') (eatWs t1)).bind fun t2 =>
  (eatStr ("signingConfigs.getByName(".data) (eatWs t2)).bind fun t3 =>
  (eatChar isQuote t3).bind fun t4 =>
  (eatStr ("debug".data) t4).bind fun t5 =>
  (eatChar isQuote t5).bind fun t6 =>
  eatChar (fun c => c == ')') t6

/-- Length consumed by the pure-dialect debug-wiring pattern. -/
def matchDebugKtsAt (t : Text) : Option Nat :=
  (matchDebugKtsRest t).map (fun r => t.length - r.length)

/-- Match of `signingConfig\s+signingConfigs\.debug` at the head of the
input (`\s+`: at least one space character); on success the rest. -/
def matchDebugGroovyRest (t : Text) : Option Text :=
  (eatStr ("signingConfig".data) t).bind fun t1 =>
  match t1 with
  | [] => none
  | c :: _ =>
    if isPySpace c then eatStr ("signingConfigs.debug".data) (eatWs t1) else none

/-- Length consumed by the legacy/hybrid debug-wiring pattern. -/
def matchDebugGroovyAt (t : Text) : Option Nat :=
  (matchDebugGroovyRest t).map (fun r => t.length - r.length)

/-- Match of `//\s*TODO:.*signing config.*\n` at the head of the input,
returning the consumed length.  `.` never crosses a newline, so the
match requires `signing config` between the `TODO:` anchor and the next
newline, and always ends exactly at that newline; `\s*` may cross
newlines but `TODO:` must start at the first non-space character after
`//`. -/
def matchTodoAt (t : Text) : Option Nat :=
  (eatStr ("//".data) t).bind fun t1 =>
  (eatStr ("TODO:".data) (eatWs t1)).bind fun t3 =>
  let line := t3.takeWhile (fun c => c != '\n')
  match t3.drop line.length with
  | _ :: _ =>
    if containsSub ("signing config".data) line then
      some (t.length - t3.length + line.length + 1)
    else none
  | [] => none

example : matchTodoAt ("// TODO: Add your own signing config here\nrest".data) = some 42 := by rfl
example : matchTodoAt ("// TODO: nothing relevant\nrest".data) = none := by rfl

/-- One left-to-right pass of `re.sub`: at each position try the
matcher; on a match emit the replacement and skip the matched length,
otherwise emit the character and move on.  Every matcher used here
consumes at least one character and every step spends one unit of
fuel, so starting the fuel at the length of the input the remaining
input is never longer than the fuel and the `0`-fuel fallback is
unreachable. -/
def subScanAux (m : Text → Option Nat) (repl : Text) : Nat → Text → Text
  | _, [] => []
  | 0, ts => ts
  | fuel + 1, c :: t =>
    match m (c :: t) with
    | some k => repl ++ subScanAux m repl fuel (t.drop (k - 1))
    | none => c :: subScanAux m repl fuel t

/-- `re.sub(pattern, repl, text)` for the deterministic patterns above. -/
def subScan (m : Text → Option Nat) (repl : Text) (ts : Text) : Text :=
  subScanAux m repl ts.length ts

/-- Whether the matcher fires anywhere in the input. -/
def hasMatch (m : Text → Option Nat) : Text → Bool
  | [] => false
  | c :: t => (m (c :: t)).isSome || hasMatch m t

/-- Python `str.replace(old, new)`: replace every non-overlapping
occurrence, left to right; an empty `old` inserts `new` at every
position, including both ends. -/
def pyReplace (s old new : Text) : Text :=
  if old.isEmpty then new ++ s.flatMap (fun c => c :: new)
  else subScan (fun t => if old.isPrefixOf t then some old.length else none) new s

example : pyReplace ("aaa".data) ("aa".data) ("b".data) = "ba".data := by rfl
example : pyReplace ("ab".data) ([]) ("X".data) = "XaXbX".data := by rfl
example : subScan matchDebugGroovyAt ("Z".data)
    ("x signingConfig   signingConfigs.debug y".data) = "x Z y".data := by rfl

/-- The pure-Kotlin-DSL `key_properties_code` template (gradle.py lines
110-159), with the configuration name spliced in at the two f-string
holes. -/
def ktsKeyPropertiesCode (name : Text) : Text :=
  "\n".data
  ++ "    // Load key.properties file\n".data
  ++ "    import java.util.Properties\n".data
  ++ "    import java.io.FileInputStream\n".data
  ++ "\n".data
  ++ "    // Function to safely load properties\n".data
  ++ "    fun loadProperties(file: java.io.File): Properties \x7b\n".data
  ++ "        val properties = Properties()\n".data
  ++ "        if (file.isFile) \x7b // Check if it\x27s a file and exists\n".data
  ++ "            try \x7b\n".data
  ++ "                FileInputStream(file).use \x7b fis ->\n".data
  ++ "                    properties.load(fis)\n".data
  ++ "                \x7d\n".data
  ++ "            \x7d catch (e: Exception) \x7b\n".data
  ++ "                // Log the exception or handle it as needed\n".data
  ++ "                logger.warn(\"Could not load properties file $\x7bfile.name\x7d: $\x7be.message\x7d\")\n".data
  ++ "            \x7d\n".data
  ++ "        \x7d else \x7b\n".data
  ++ "            logger.warn(\"Properties file not found: $\x7bfile.absolutePath\x7d\")\n".data
  ++ "        \x7d\n".data
  ++ "        return properties\n".data
  ++ "    \x7d\n".data
  ++ "\n".data
  ++ "    // Load keystore properties\n".data
  ++ "    val keystorePropertiesFile = rootProject.file(\"key.properties\")\n".data
  ++ "    val keystoreProperties = loadProperties(keystorePropertiesFile)\n".data
  ++ "\n".data
  ++ "    // Define signing configurations\n".data
  ++ "    signingConfigs \x7b\n".data
  ++ "        // Creates a signing configuration named \x27".data
  ++ name
  ++ "\x27\n".data
  ++ "        create(\"".data
  ++ name
  ++ "\") \x7b\n".data
  ++ "            // Use getProperty which returns null if key doesn\x27t exist\n".data
  ++ "            val storeFilePath = keystoreProperties.getProperty(\"storeFile\")\n".data
  ++ "            val storePass = keystoreProperties.getProperty(\"storePassword\")\n".data
  ++ "            val alias = keystoreProperties.getProperty(\"keyAlias\")\n".data
  ++ "            val keyPass = keystoreProperties.getProperty(\"keyPassword\")\n".data
  ++ "\n".data
  ++ "            // Only configure if all properties were found\n".data
  ++ "            if (storeFilePath != null && storePass != null && alias != null && keyPass != null) \x7b\n".data
  ++ "                // Use project.file to resolve the path relative to the project\n".data
  ++ "                storeFile = project.file(storeFilePath)\n".data
  ++ "                storePassword = storePass\n".data
  ++ "                keyAlias = alias\n".data
  ++ "                keyPassword = keyPass\n".data
  ++ "            \x7d else \x7b\n".data
  ++ "                logger.warn(\"Release signing configuration in build.gradle.kts is missing details from key.properties. Release builds may fail or use debug signing.\")\n".data
  ++ "            \x7d\n".data
  ++ "        \x7d\n".data
  ++ "    \x7d\n".data

/-- The pure-Kotlin-DSL `release_config` template (gradle.py lines
161-171), with the five f-string holes filled by the name. -/
def ktsReleaseConfig (name : Text) : Text :=
  "\n".data
  ++ "            // Apply the \x27".data
  ++ name
  ++ "\x27 signing configuration defined above\n".data
  ++ "            // Make sure \x27signingConfigs.".data
  ++ name
  ++ "\x27 actually exists and is configured\n".data
  ++ "            if (signingConfigs.findByName(\"".data
  ++ name
  ++ "\")?.storeFile != null) \x7b\n".data
  ++ "                signingConfig = signingConfigs.getByName(\"".data
  ++ name
  ++ "\")\n".data
  ++ "            \x7d else \x7b\n".data
  ++ "                logger.warn(\"Signing config \x27".data
  ++ name
  ++ "\x27 not fully configured (check key.properties). Release build may use debug signing.\")\n".data
  ++ "                // Fallback to debug signing explicitly if desired/needed\n".data
  ++ "                // signingConfig = signingConfigs.getByName(\"debug\")\n".data
  ++ "            \x7d\n".data

/-- The hybrid-Kotlin-DSL `key_properties_code` template (gradle.py
lines 174-190). -/
def hybridKeyPropertiesCode (name : Text) : Text :=
  "\n".data
  ++ "    // Load key.properties file\n".data
  ++ "    def keystoreProperties = new Properties()\n".data
  ++ "    def keystorePropertiesFile = rootProject.file(\x27key.properties\x27)\n".data
  ++ "    if (keystorePropertiesFile.exists()) \x7b\n".data
  ++ "        keystoreProperties.load(new FileInputStream(keystorePropertiesFile))\n".data
  ++ "    \x7d\n".data
  ++ "    \n".data
  ++ "    signingConfigs \x7b\n".data
  ++ "        ".data
  ++ name
  ++ " \x7b\n".data
  ++ "            keyAlias keystoreProperties[\x27keyAlias\x27]\n".data
  ++ "            keyPassword keystoreProperties[\x27keyPassword\x27]\n".data
  ++ "            storeFile keystoreProperties[\x27storeFile\x27] ? file(keystoreProperties[\x27storeFile\x27]) : null\n".data
  ++ "            storePassword keystoreProperties[\x27storePassword\x27]\n".data
  ++ "        \x7d\n".data
  ++ "    \x7d\n".data

/-- The hybrid-Kotlin-DSL `release_config` template (gradle.py lines
191-193). -/
def hybridReleaseConfig (name : Text) : Text :=
  "\n            signingConfig signingConfigs.".data ++ name ++ "\n".data

/-- The Groovy-DSL `key_properties_code` template (gradle.py lines
196-212).  It differs from the hybrid template only in the `storeFile`
line, which applies `file(...)` unconditionally. -/
def groovyKeyPropertiesCode (name : Text) : Text :=
  "\n".data
  ++ "    // Load key.properties file\n".data
  ++ "    def keystoreProperties = new Properties()\n".data
  ++ "    def keystorePropertiesFile = rootProject.file(\x27key.properties\x27)\n".data
  ++ "    if (keystorePropertiesFile.exists()) \x7b\n".data
  ++ "        keystoreProperties.load(new FileInputStream(keystorePropertiesFile))\n".data
  ++ "    \x7d\n".data
  ++ "    \n".data
  ++ "    signingConfigs \x7b\n".data
  ++ "        ".data
  ++ name
  ++ " \x7b\n".data
  ++ "            keyAlias keystoreProperties[\x27keyAlias\x27]\n".data
  ++ "            keyPassword keystoreProperties[\x27keyPassword\x27]\n".data
  ++ "            storeFile file(keystoreProperties[\x27storeFile\x27])\n".data
  ++ "            storePassword keystoreProperties[\x27storePassword\x27]\n".data
  ++ "        \x7d\n".data
  ++ "    \x7d\n".data

/-- The Groovy-DSL `release_config` template (gradle.py lines 213-215);
textually identical to the hybrid one. -/
def groovyReleaseConfig (name : Text) : Text :=
  "\n            signingConfig signingConfigs.".data ++ name ++ "\n".data

/-- The `kotlin_patterns` marker list (gradle.py lines 93-102) used to
distinguish a pure Kotlin DSL `.kts` file from a hybrid one. -/
def kotlinPatterns : List Text :=
  [ "val ".data
  , "import kotlin.".data
  , "= listOf".data
  , ": String".data
  , "buildTypes \x7b".data
  , "plugins \x7b".data
  , "android \x7b".data
  , "implementation(platform".data ]

/-- `is_pure_kotlin` (gradle.py line 104): any marker occurs in the text. -/
def isPureKotlinDsl (content : Text) : Bool :=
  kotlinPatterns.any (fun p => containsSub p content)

/-- The idempotency marker `"signingConfigs {"` checked by gradle.py
line 77 (the source tests the same literal twice). -/
def sigMarker : Text := "signingConfigs \x7b".data

/-- The dialect-selected `key_properties_code` (gradle.py lines 84-212):
Kotlin-DSL file with pure markers, Kotlin-DSL file without them, or a
plain Groovy file. -/
def selectKeyPropertiesCode (isKts isPure : Bool) (name : Text) : Text :=
  if isKts then
    if isPure then ktsKeyPropertiesCode name else hybridKeyPropertiesCode name
  else groovyKeyPropertiesCode name

/-- The dialect-selected `release_config` (gradle.py lines 161-215). -/
def selectReleaseConfig (isKts isPure : Bool) (name : Text) : Text :=
  if isKts then
    if isPure then ktsReleaseConfig name else hybridReleaseConfig name
  else groovyReleaseConfig name

/-- The replacement string of the debug-wiring `re.sub` for the chosen
dialect (gradle.py lines 250 and 257; the getByName branch repeats the
same two replacements at lines 282 and 289). -/
def debugReplFor (isKts isPure : Bool) (name : Text) : Text :=
  if isKts && isPure then
    "signingConfig = signingConfigs.getByName(\"".data ++ name ++ "\")".data
  else
    "signingConfig signingConfigs.".data ++ name

/-- The debug-wiring pattern for the chosen dialect (gradle.py lines
249 and 256). -/
def debugMatcherFor (isKts isPure : Bool) : Text → Option Nat :=
  if isKts && isPure then matchDebugKtsAt else matchDebugGroovyAt

/-- The dialect-dispatched debug-wiring `re.sub` applied to the variant
block contents. -/
def subDebug (isKts isPure : Bool) (name g1 : Text) : Text :=
  subScan (debugMatcherFor isKts isPure) (debugReplFor isKts isPure name) g1

/-- `re.sub(r"//\s*TODO:.*signing config.*\n", "", s)` (gradle.py lines
262 and 294). -/
def subTodoStrip (t : Text) : Text := subScan matchTodoAt [] t

/-- The body shared by the two variant-block branches (gradle.py lines
243-265 and 276-299): if the block contents mention `signingConfig`,
rewrite a debug wiring and strip TODO comments; otherwise append the
generated `release_config`. -/
def rewriteVariantContents (isKts isPure : Bool) (name relCfg g1 : Text) : Text :=
  if containsSub ("signingConfig".data) g1 then
    subTodoStrip (subDebug isKts isPure name g1)
  else g1 ++ relCfg

/-- `modified_content` right after inserting the generated block at
`match.end()` of the android pattern (gradle.py lines 221-227). -/
def insertedText (isKts : Bool) (name content : Text) (insertPos : Nat) : Text :=
  content.take insertPos
    ++ selectKeyPropertiesCode isKts (isKts && isPureKotlinDsl content) name
    ++ content.drop insertPos

/-- The variant-wiring step (gradle.py lines 237-306): find the first
`release { ... }` block, else the first `getByName("release") { ... }`
block, rewrite its contents, and splice the result back with Python
`str.replace` (which replaces every occurrence of the old contents);
if neither pattern matches, the text is left as inserted (warning only). -/
def spliceVariant (isKts isPure : Bool) (name relCfg mc : Text) : Text :=
  match searchRelease mc with
  | some g1 => pyReplace mc g1 (rewriteVariantContents isKts isPure name relCfg g1)
  | none =>
    match searchGetByName mc with
    | some g1 => pyReplace mc g1 (rewriteVariantContents isKts isPure name relCfg g1)
    | none => mc

/-- The pure text transformation of gradle.py lines 84-306 for a file
that passed the idempotency check: `none` when the android pattern is
absent (the fatal `GradleError` of line 229), otherwise the patched
text.  The source computes the templates before the android search;
both are pure so the order is immaterial. -/
def patchPipeline (isKts : Bool) (name content : Text) : Option Text :=
  match searchAndroidEnd content with
  | none => none
  | some insertPos =>
    some (spliceVariant isKts (isKts && isPureKotlinDsl content) name
      (selectReleaseConfig isKts (isKts && isPureKotlinDsl content) name)
      (insertedText isKts name content insertPos))

/-- The typed errors `update_app_build_gradle` can raise, one per
`raise GradleError` site; the read and write errors carry the
stringified underlying cause (`details=str(e)`). -/
inductive GErr where
  | appDirNotFound
  | noGradleFile
  | readFailed (details : Text)
  | androidBlockNotFound
  | writeFailed (details : Text)
  deriving DecidableEq

/-- The four exits of `update_app_build_gradle`: `return True` at the
idempotency short-circuit (line 81), `return True` after writing
(line 324), `return False` when `key.properties` is missing (line 46),
or a raised `GradleError`. -/
inductive GradleResult where
  | alreadyPresent
  | applied
  | skippedNoKeyProperties
  | raisedError (e : GErr)
  deriving DecidableEq

/-- Attempted file operations on the build-script file and its backup,
in program order. -/
inductive FOp where
  | readGradle
  | writeBackup (content : Text)
  | writeGradle (content : Text)
  deriving DecidableEq

/-- The file-system facts `update_app_build_gradle` consults, plus
fault-injection flags for the read (line 69), the backup write
(line 311) and the final write (line 319).  `content` is what a
successful read of the selected build-script file returns. -/
structure Env where
  appDirExists : Bool
  keyPropsExists : Bool
  ktsExists : Bool
  groovyExists : Bool
  content : Text
  readFails : Bool
  readFailCause : Text
  backupWriteFails : Bool
  writeFails : Bool
  writeFailCause : Text
  deriving DecidableEq

/-- `update_app_build_gradle(flutter_project_path, config, signing_config_name)`
(gradle.py lines 12-342), as the returned outcome plus the ordered
trace of attempted file operations.  Guard order follows the source:
app directory (line 31), `key.properties` (line 43), build-script file
selection with `.kts` preferred (lines 49-65), read (line 68),
idempotency marker (line 77), then the pure patch pipeline; the backup
write is attempted unconditionally before the final write (lines
308-315), and a backup failure is only a warning.  The final
catch-all of lines 333-342 re-wraps unexpected exceptions; the
embedded pipeline is total, so it has no counterpart here. -/
def updateAppBuildGradle (env : Env) (name : Text) : GradleResult × List FOp :=
  if !env.appDirExists then (GradleResult.raisedError GErr.appDirNotFound, [])
  else if !env.keyPropsExists then (GradleResult.skippedNoKeyProperties, [])
  else if !env.ktsExists && !env.groovyExists then
    (GradleResult.raisedError GErr.noGradleFile, [])
  else if env.readFails then
    (GradleResult.raisedError (GErr.readFailed env.readFailCause), [FOp.readGradle])
  else if containsSub sigMarker env.content then
    (GradleResult.alreadyPresent, [FOp.readGradle])
  else
    match patchPipeline env.ktsExists name env.content with
    | none => (GradleResult.raisedError GErr.androidBlockNotFound, [FOp.readGradle])
    | some newText =>
      let ops := [FOp.readGradle, FOp.writeBackup env.content, FOp.writeGradle newText]
      if env.writeFails then
        (GradleResult.raisedError (GErr.writeFailed env.writeFailCause), ops)
      else (GradleResult.applied, ops)

/-- On-disk state of the selected build-script file and its `.bak`
sibling. -/
structure Disk where
  gradleFile : Text
  bakFile : Option Text
  deriving DecidableEq

/-- Effect of one attempted operation: a failed write leaves the disk
unchanged. -/
def applyOp (env : Env) (d : Disk) : FOp → Disk
  | FOp.readGradle => d
  | FOp.writeBackup c => if env.backupWriteFails then d else { d with bakFile := some c }
  | FOp.writeGradle c => if env.writeFails then d else { d with gradleFile := c }

/-- Final on-disk state after a run of the patcher, starting from the
selected build-script file holding `env.content` and no backup. -/
def runDisk (env : Env) (name : Text) : Disk :=
  (updateAppBuildGradle env name).2.foldl (applyOp env) ⟨env.content, none⟩

/-- Modelled from the spec: the depth-counter scan of ScopeLocator
(spec section 4.2), which the source does not contain (the source uses
the non-nested regex embedded as `searchRelease`).  From a position
just after the opening brace, collect characters while keeping a brace
depth; the block ends at the closing brace that returns the depth to
zero; `none` if the input ends first. -/
def balancedContents : Nat → Text → Option Text
  | _, [] => none
  | d, c :: t =>
    if c == cbr then
      if d == 0 then some []
      else (balancedContents (d - 1) t).map (fun r => c :: r)
    else if c == obr then (balancedContents (d + 1) t).map (fun r => c :: r)
    else (balancedContents d t).map (fun r => c :: r)

/-- Modelled from the spec: `locateNamedBlock(text, "release")` of
ScopeLocator (spec section 4.2) — first occurrence of the keyword
followed by optional whitespace and an opening brace, then the
brace-balanced contents up to the matching closing brace. -/
def locateVariantContentsSpec : Text → Option Text
  | [] => none
  | c :: t =>
    match matchKwOpenRest ("release".data) (c :: t) with
    | some rest => balancedContents 0 rest
    | none => locateVariantContentsSpec t

/-- The five pure-dialect markers that claim C6 enumerates (typed
variable declarations, declarative imports, declarative collection
construction, typed property declarations, modern plugin application);
the source list `kotlinPatterns` has three further markers. -/
def specListedMarkers : List Text :=
  [ "val ".data
  , "import kotlin.".data
  , "= listOf".data
  , ": String".data
  , "plugins \x7b".data ]

/-- The guards that let a run reach the patching stage: the app
directory and `key.properties` exist, some build-script file exists,
and reading it succeeds. -/
def reachesPatch (env : Env) : Prop :=
  env.appDirExists = true ∧ env.keyPropsExists = true ∧
    (env.ktsExists = true ∨ env.groovyExists = true) ∧ env.readFails = false

/-- A `re.sub` whose pattern matches nowhere is the identity. -/
theorem subScanAux_of_no_match (m : Text → Option Nat) (repl : Text) :
    ∀ fuel t, hasMatch m t = false → subScanAux m repl fuel t = t := by
  intro fuel
  induction fuel with
  | zero =>
    intro t _
    cases t <;> simp [subScanAux]
  | succ f ih =>
    intro t h
    cases t with
    | nil => simp [subScanAux]
    | cons c t =>
      rw [hasMatch] at h
      rcases Bool.or_eq_false_iff.mp h with ⟨h1, h2⟩
      cases hm : m (c :: t) with
      | some k => rw [hm] at h1; simp at h1
      | none => simp [subScanAux, hm, ih t h2]

/-- A `re.sub` whose pattern matches nowhere is the identity. -/
theorem subScan_of_no_match (m : Text → Option Nat) (repl : Text) (t : Text)
    (h : hasMatch m t = false) : subScan m repl t = t :=
  subScanAux_of_no_match m repl t.length t h

/-- C7: if the app directory exists but `key.properties` does not, the
patcher returns the soft `False` without touching, reading or backing
up the build-script file. -/
theorem c7_missing_properties_soft_noop (env : Env) (name : Text)
    (hA : env.appDirExists = true) (hK : env.keyPropsExists = false) :
    updateAppBuildGradle env name = (GradleResult.skippedNoKeyProperties, []) ∧
    runDisk env name = ⟨env.content, none⟩ := by
  have h1 : updateAppBuildGradle env name = (GradleResult.skippedNoKeyProperties, []) := by
    simp [updateAppBuildGradle, hA, hK]
  refine ⟨h1, ?_⟩
  simp [runDisk, h1]

/-- C7 witness. -/
def env7w : Env :=
  ⟨true, false, false, true, "android \x7b\n\x7d\n".data, false, [], false, false, []⟩

theorem c7_missing_properties_soft_noop_witness :
    env7w.appDirExists = true ∧ env7w.keyPropsExists = false ∧
    updateAppBuildGradle env7w ("release".data) = (GradleResult.skippedNoKeyProperties, []) ∧
    runDisk env7w ("release".data) = ⟨env7w.content, none⟩ := by
  obtain ⟨a, b⟩ := c7_missing_properties_soft_noop env7w ("release".data) rfl rfl
  exact ⟨rfl, rfl, a, b⟩

/-- C3: when the run reaches the patching stage, the idempotency marker
is absent and the android pattern does not match, the patcher raises
the missing-outer-block error, the file on disk keeps its original
bytes, and no backup file is created. -/
theorem c3_missing_android_block_atomic (env : Env) (name : Text)
    (hR : reachesPatch env)
    (hM : containsSub sigMarker env.content = false)
    (hAnd : searchAndroidEnd env.content = none) :
    updateAppBuildGradle env name =
      (GradleResult.raisedError GErr.androidBlockNotFound, [FOp.readGradle]) ∧
    runDisk env name = ⟨env.content, none⟩ := by
  obtain ⟨h1, h2, h3, h4⟩ := hR
  have he : updateAppBuildGradle env name =
      (GradleResult.raisedError GErr.androidBlockNotFound, [FOp.readGradle]) := by
    rcases h3 with h3 | h3 <;>
      simp [updateAppBuildGradle, h1, h2, h3, h4, hM, patchPipeline, hAnd]
  refine ⟨he, ?_⟩
  simp [runDisk, he, applyOp]

/-- C3 witness. -/
def env3w : Env :=
  ⟨true, true, true, false, "no blocks here".data, false, [], false, false, []⟩

theorem c3_missing_android_block_atomic_witness :
    reachesPatch env3w ∧
    containsSub sigMarker env3w.content = false ∧
    searchAndroidEnd env3w.content = none ∧
    updateAppBuildGradle env3w ("release".data) =
      (GradleResult.raisedError GErr.androidBlockNotFound, [FOp.readGradle]) ∧
    runDisk env3w ("release".data) = ⟨env3w.content, none⟩ := by
  have hR : reachesPatch env3w := ⟨rfl, rfl, Or.inl rfl, rfl⟩
  obtain ⟨a, b⟩ := c3_missing_android_block_atomic env3w ("release".data) hR rfl rfl
  exact ⟨hR, rfl, rfl, a, b⟩

/-- C2 (amended): when the run reaches the patching stage and the raw
text already contains the generator marker `signingConfigs {`, the
patcher returns the already-present success with no write at all, so
the on-disk text stays byte-identical. -/
theorem c2_marker_short_circuit (env : Env) (name : Text)
    (hR : reachesPatch env)
    (hM : containsSub sigMarker env.content = true) :
    updateAppBuildGradle env name = (GradleResult.alreadyPresent, [FOp.readGradle]) ∧
    runDisk env name = ⟨env.content, none⟩ := by
  obtain ⟨h1, h2, h3, h4⟩ := hR
  have he : updateAppBuildGradle env name =
      (GradleResult.alreadyPresent, [FOp.readGradle]) := by
    rcases h3 with h3 | h3 <;> simp [updateAppBuildGradle, h1, h2, h3, h4, hM]
  refine ⟨he, ?_⟩
  simp [runDisk, he, applyOp]

/-- C2 witness: an already-patched document. -/
def env2w : Env :=
  ⟨true, true, true, false,
    "android \x7b\n    signingConfigs \x7b\n    \x7d\n\x7d\n".data,
    false, [], false, false, []⟩

theorem c2_marker_short_circuit_witness :
    reachesPatch env2w ∧
    containsSub sigMarker env2w.content = true ∧
    updateAppBuildGradle env2w ("release".data) =
      (GradleResult.alreadyPresent, [FOp.readGradle]) ∧
    runDisk env2w ("release".data) = ⟨env2w.content, none⟩ := by
  have hR : reachesPatch env2w := ⟨rfl, rfl, Or.inl rfl, rfl⟩
  obtain ⟨a, b⟩ := c2_marker_short_circuit env2w ("release".data) hR rfl
  exact ⟨hR, rfl, a, b⟩

/-- C2 counterexample input: a Groovy file whose release block has the
one-character contents `g`.  The splice then calls
`str.replace("g", ...)`, which scatters the wiring line over every `g`
of the whole document, destroying the `signingConfigs {` marker, so a
second run is not a no-op: it patches (and re-inserts) again. -/
def c2cxEnv : Env :=
  ⟨true, true, false, true, "android \x7brelease \x7bg\x7d\x7d".data,
    false, [], false, false, []⟩

/-- The text the first run writes to disk. -/
def c2cxOut : Text := (patchPipeline false ("prod".data) c2cxEnv.content).getD []

/-- The environment of the second run: the build-script file now holds
the first run's output. -/
def c2cxRerunEnv : Env := { c2cxEnv with content := c2cxOut }

theorem c2_counterexample_rerun_not_noop :
    updateAppBuildGradle c2cxEnv ("prod".data) =
      (GradleResult.applied,
        [FOp.readGradle, FOp.writeBackup c2cxEnv.content, FOp.writeGradle c2cxOut]) ∧
    runDisk c2cxEnv ("prod".data) = ⟨c2cxOut, some c2cxEnv.content⟩ ∧
    (updateAppBuildGradle c2cxRerunEnv ("prod".data)).1 = GradleResult.applied ∧
    (patchPipeline false ("prod".data) c2cxOut).map
      (countOccur ("    def keystoreProperties = new Properties()\n".data)) = some 2 := by
  exact ⟨rfl, rfl, rfl, rfl⟩

/-- C10: whenever the text read from the build-script file contains the
literal `signingConfigs {` anywhere, the patcher returns success
immediately, attempts no write, and its entire outcome is independent
of the requested configuration name. -/
theorem c10_marker_overbreadth (env : Env) (n1 n2 : Text)
    (hR : reachesPatch env)
    (hM : containsSub sigMarker env.content = true) :
    updateAppBuildGradle env n1 = (GradleResult.alreadyPresent, [FOp.readGradle]) ∧
    updateAppBuildGradle env n1 = updateAppBuildGradle env n2 := by
  obtain ⟨h1, h2, h3, h4⟩ := hR
  have he : ∀ n : Text, updateAppBuildGradle env n =
      (GradleResult.alreadyPresent, [FOp.readGradle]) := by
    intro n
    rcases h3 with h3 | h3 <;> simp [updateAppBuildGradle, h1, h2, h3, h4, hM]
  exact ⟨he n1, (he n1).trans (he n2).symm⟩

/-- C10 witness: the marker sits inside a comment and the only declared
configuration name differs from both requested names. -/
def env10w : Env :=
  ⟨true, true, false, true,
    "// signingConfigs \x7b staging \x7d was here\nandroid \x7b\n\x7d\n".data,
    false, [], false, false, []⟩

theorem c10_marker_overbreadth_witness :
    reachesPatch env10w ∧
    containsSub sigMarker env10w.content = true ∧
    updateAppBuildGradle env10w ("release".data) =
      (GradleResult.alreadyPresent, [FOp.readGradle]) ∧
    updateAppBuildGradle env10w ("release".data) =
      updateAppBuildGradle env10w ("production".data) := by
  have hR : reachesPatch env10w := ⟨rfl, rfl, Or.inr rfl, rfl⟩
  obtain ⟨a, b⟩ := c10_marker_overbreadth env10w ("release".data) ("production".data) hR rfl
  exact ⟨hR, rfl, a, b⟩

/-- C4 (amended): when the final write fails, the patcher raises the
write-failure error carrying the underlying cause; the only writes it
ever attempted are the best-effort backup and the one failed write of
the patched text — there is no attempt to write the original text
back. -/
theorem c4_write_failure_no_restore (env : Env) (name t : Text)
    (hR : reachesPatch env)
    (hM : containsSub sigMarker env.content = false)
    (hP : patchPipeline env.ktsExists name env.content = some t)
    (hW : env.writeFails = true) :
    updateAppBuildGradle env name =
      (GradleResult.raisedError (GErr.writeFailed env.writeFailCause),
        [FOp.readGradle, FOp.writeBackup env.content, FOp.writeGradle t]) := by
  obtain ⟨h1, h2, h3, h4⟩ := hR
  rcases h3 with h3 | h3
  · rw [h3] at hP
    simp [updateAppBuildGradle, h1, h2, h3, h4, hM, hP, hW]
  · simp [updateAppBuildGradle, h1, h2, h3, h4, hM, hP, hW]

/-- A trace operation that writes the build-script file (any content). -/
def isGradleWrite : FOp → Bool
  | FOp.writeGradle _ => true
  | _ => false

/-- A trace operation that writes exactly `c` to the build-script file. -/
def isGradleWriteOf (c : Text) : FOp → Bool
  | FOp.writeGradle c2 => c2 == c
  | _ => false

/-- C4 counterexample input: a well-formed Groovy project whose final
write fails with cause `disk full`. -/
def c4Env : Env :=
  ⟨true, true, false, true, "android \x7bhello\x7d".data,
    false, [], false, true, "disk full".data⟩

/-- The patched text the failed write attempted. -/
def c4Out : Text := (patchPipeline false ("prod".data) c4Env.content).getD []

theorem c4_counterexample_no_restore :
    (updateAppBuildGradle c4Env ("prod".data)).1 =
      GradleResult.raisedError (GErr.writeFailed ("disk full".data)) ∧
    (updateAppBuildGradle c4Env ("prod".data)).2.countP isGradleWrite = 1 ∧
    (updateAppBuildGradle c4Env ("prod".data)).2.countP
      (isGradleWriteOf c4Env.content) = 0 := by
  exact ⟨rfl, rfl, rfl⟩

/-- C4 witness for the amended theorem. -/
theorem c4_write_failure_no_restore_witness :
    reachesPatch c4Env ∧
    containsSub sigMarker c4Env.content = false ∧
    patchPipeline c4Env.ktsExists ("prod".data) c4Env.content = some c4Out ∧
    c4Env.writeFails = true ∧
    updateAppBuildGradle c4Env ("prod".data) =
      (GradleResult.raisedError (GErr.writeFailed c4Env.writeFailCause),
        [FOp.readGradle, FOp.writeBackup c4Env.content, FOp.writeGradle c4Out]) := by
  have hR : reachesPatch c4Env := ⟨rfl, rfl, Or.inr rfl, rfl⟩
  have hP : patchPipeline c4Env.ktsExists ("prod".data) c4Env.content = some c4Out := rfl
  exact ⟨hR, rfl, hP, rfl,
    c4_write_failure_no_restore c4Env ("prod".data) c4Out hR rfl hP rfl⟩

/-- C8: when the run reaches the patching stage, the android block is
found but neither variant pattern matches the inserted text, the
patcher still writes the file with the generated signing block
inserted and reports success. -/
theorem c8_missing_variant_partial_success (env : Env) (name : Text) (p : Nat)
    (hR : reachesPatch env)
    (hM : containsSub sigMarker env.content = false)
    (hAnd : searchAndroidEnd env.content = some p)
    (hRel : searchRelease (insertedText env.ktsExists name env.content p) = none)
    (hGet : searchGetByName (insertedText env.ktsExists name env.content p) = none)
    (hW : env.writeFails = false) :
    updateAppBuildGradle env name =
      (GradleResult.applied,
        [FOp.readGradle, FOp.writeBackup env.content,
          FOp.writeGradle (insertedText env.ktsExists name env.content p)]) := by
  obtain ⟨h1, h2, h3, h4⟩ := hR
  rcases h3 with h3 | h3
  · rw [h3] at hRel hGet
    simp [updateAppBuildGradle, h1, h2, h3, h4, hM, hW, patchPipeline, hAnd,
      spliceVariant, hRel, hGet]
  · simp [updateAppBuildGradle, h1, h2, h3, h4, hM, hW, patchPipeline, hAnd,
      spliceVariant, hRel, hGet]

/-- C8 witness: a Groovy file with an android block and no release
block; note the requested name `prod` keeps the generated template from
matching the variant pattern itself. -/
def env8w : Env :=
  ⟨true, true, false, true, "android \x7bxy\x7d".data, false, [], false, false, []⟩

theorem c8_missing_variant_partial_success_witness :
    reachesPatch env8w ∧
    containsSub sigMarker env8w.content = false ∧
    searchAndroidEnd env8w.content = some 9 ∧
    searchRelease (insertedText env8w.ktsExists ("prod".data) env8w.content 9) = none ∧
    searchGetByName (insertedText env8w.ktsExists ("prod".data) env8w.content 9) = none ∧
    updateAppBuildGradle env8w ("prod".data) =
      (GradleResult.applied,
        [FOp.readGradle, FOp.writeBackup env8w.content,
          FOp.writeGradle (insertedText env8w.ktsExists ("prod".data) env8w.content 9)]) := by
  have hR : reachesPatch env8w := ⟨rfl, rfl, Or.inr rfl, rfl⟩
  exact ⟨hR, rfl, rfl, rfl, rfl,
    c8_missing_variant_partial_success env8w ("prod".data) 9 hR rfl rfl rfl rfl rfl⟩

/-- C9: when the located variant-block contents — located either by
the bare `release {` pattern or, when that misses, by the
`getByName("release")` fallback, the code's two location branches —
mention `signingConfig` but the dialect-selected debug-wiring pattern
matches nowhere in them, the patcher leaves the existing reference as
it is — the block is only run through the TODO-comment strip — appends
no wiring line, and still reports success. -/
theorem c9_unrecognized_wiring_left_alone (env : Env) (name : Text) (p : Nat) (g1 : Text)
    (hR : reachesPatch env)
    (hM : containsSub sigMarker env.content = false)
    (hAnd : searchAndroidEnd env.content = some p)
    (hLoc : searchRelease (insertedText env.ktsExists name env.content p) = some g1 ∨
      (searchRelease (insertedText env.ktsExists name env.content p) = none ∧
        searchGetByName (insertedText env.ktsExists name env.content p) = some g1))
    (hSC : containsSub ("signingConfig".data) g1 = true)
    (hND : hasMatch (debugMatcherFor env.ktsExists
      (env.ktsExists && isPureKotlinDsl env.content)) g1 = false)
    (hW : env.writeFails = false) :
    updateAppBuildGradle env name =
      (GradleResult.applied,
        [FOp.readGradle, FOp.writeBackup env.content,
          FOp.writeGradle (pyReplace (insertedText env.ktsExists name env.content p)
            g1 (subTodoStrip g1))]) := by
  obtain ⟨h1, h2, h3, h4⟩ := hR
  have hsub : ∀ b1 b2 : Bool, hasMatch (debugMatcherFor b1 b2) g1 = false →
      rewriteVariantContents b1 b2 name (selectReleaseConfig b1 b2 name) g1 =
        subTodoStrip g1 := by
    intro b1 b2 hnd
    rw [rewriteVariantContents, hSC]
    simp only [if_true]
    rw [subDebug, subScan_of_no_match _ _ _ hnd]
  rcases h3 with h3 | h3
  · rw [h3] at hLoc hND
    rw [Bool.true_and] at hND
    rcases hLoc with hRel | ⟨hRel, hGet⟩
    · simp [updateAppBuildGradle, h1, h2, h3, h4, hM, hW, patchPipeline, hAnd,
        spliceVariant, hRel, hsub _ _ hND]
    · simp [updateAppBuildGradle, h1, h2, h3, h4, hM, hW, patchPipeline, hAnd,
        spliceVariant, hRel, hGet, hsub _ _ hND]
  · rcases hLoc with hRel | ⟨hRel, hGet⟩
    · simp [updateAppBuildGradle, h1, h2, h3, h4, hM, hW, patchPipeline, hAnd,
        spliceVariant, hRel, hsub _ _ hND]
    · simp [updateAppBuildGradle, h1, h2, h3, h4, hM, hW, patchPipeline, hAnd,
        spliceVariant, hRel, hGet, hsub _ _ hND]

/-- C9 witness input for the bare-pattern branch: a Groovy release
block already wired to a third configuration name `custom`. -/
def env9w : Env :=
  ⟨true, true, false, true,
    "android \x7b\nrelease \x7b\n signingConfig signingConfigs.custom\n\x7d\n\x7d\n".data,
    false, [], false, false, []⟩

/-- The variant-block contents the bare pattern locates in `env9w`. -/
def g1w : Text := "\n signingConfig signingConfigs.custom\n".data

/-- C9 witness input for the `getByName` fallback branch: a hybrid
`.kts` file (its android block is written with two spaces, so no pure
marker occurs) whose variant block uses the named-accessor form and is
wired to a third configuration name `custom`. -/
def env9g : Env :=
  ⟨true, true, true, false,
    "android  \x7b\ngetByName(\x27release\x27) \x7b\n signingConfig = signingConfigs.getByName(\x27custom\x27)\n\x7d\n\x7d\n".data,
    false, [], false, false, []⟩

/-- The variant-block contents the fallback pattern locates in `env9g`. -/
def g1g : Text := "\n signingConfig = signingConfigs.getByName(\x27custom\x27)\n".data

theorem c9_unrecognized_wiring_left_alone_witness :
    (reachesPatch env9w ∧
      containsSub sigMarker env9w.content = false ∧
      searchAndroidEnd env9w.content = some 9 ∧
      searchRelease (insertedText env9w.ktsExists ("prod".data) env9w.content 9) = some g1w ∧
      containsSub ("signingConfig".data) g1w = true ∧
      hasMatch (debugMatcherFor env9w.ktsExists
        (env9w.ktsExists && isPureKotlinDsl env9w.content)) g1w = false ∧
      updateAppBuildGradle env9w ("prod".data) =
        (GradleResult.applied,
          [FOp.readGradle, FOp.writeBackup env9w.content,
            FOp.writeGradle (pyReplace (insertedText env9w.ktsExists ("prod".data) env9w.content 9)
              g1w (subTodoStrip g1w))])) ∧
    (reachesPatch env9g ∧
      containsSub sigMarker env9g.content = false ∧
      searchAndroidEnd env9g.content = some 10 ∧
      searchRelease (insertedText env9g.ktsExists ("prod".data) env9g.content 10) = none ∧
      searchGetByName (insertedText env9g.ktsExists ("prod".data) env9g.content 10) = some g1g ∧
      containsSub ("signingConfig".data) g1g = true ∧
      hasMatch (debugMatcherFor env9g.ktsExists
        (env9g.ktsExists && isPureKotlinDsl env9g.content)) g1g = false ∧
      updateAppBuildGradle env9g ("prod".data) =
        (GradleResult.applied,
          [FOp.readGradle, FOp.writeBackup env9g.content,
            FOp.writeGradle (pyReplace (insertedText env9g.ktsExists ("prod".data) env9g.content 10)
              g1g (subTodoStrip g1g))])) := by
  have hR1 : reachesPatch env9w := ⟨rfl, rfl, Or.inr rfl, rfl⟩
  have hR2 : reachesPatch env9g := ⟨rfl, rfl, Or.inl rfl, rfl⟩
  refine ⟨⟨hR1, rfl, rfl, rfl, rfl, rfl, ?_⟩, ⟨hR2, rfl, rfl, rfl, rfl, rfl, rfl, ?_⟩⟩
  · exact c9_unrecognized_wiring_left_alone env9w ("prod".data) 9 g1w hR1 rfl rfl
      (Or.inl rfl) rfl rfl rfl
  · exact c9_unrecognized_wiring_left_alone env9g ("prod".data) 10 g1g hR2 rfl rfl
      (Or.inr ⟨rfl, rfl⟩) rfl rfl rfl

/-- C6 (amended): a declarative-extension (`.kts`) file containing none
of the source marker list `kotlinPatterns` — the five markers the claim
enumerates plus the Kotlin-style block headers and dependency notation
— is classified hybrid, and the generated fragments use the hybrid
indexed property access, not the null-checked pure declarative form. -/
theorem c6_hybrid_classification (content : Text)
    (h : ∀ p ∈ kotlinPatterns, containsSub p content = false) :
    isPureKotlinDsl content = false ∧
    selectKeyPropertiesCode true (isPureKotlinDsl content) ("release".data) =
      hybridKeyPropertiesCode ("release".data) ∧
    containsSub ("keystoreProperties[\x27keyAlias\x27]".data)
      (hybridKeyPropertiesCode ("release".data)) = true ∧
    containsSub ("findByName".data)
      (selectReleaseConfig true (isPureKotlinDsl content) ("release".data)) = false ∧
    containsSub ("signingConfig signingConfigs.release".data)
      (selectReleaseConfig true (isPureKotlinDsl content) ("release".data)) = true := by
  have hp : isPureKotlinDsl content = false := by
    rw [isPureKotlinDsl]
    rw [List.any_eq_false]
    intro p hpmem
    simp [h p hpmem]
  refine ⟨hp, ?_, ?_, ?_, ?_⟩
  · rw [hp]; rfl
  · rfl
  · rw [hp]; rfl
  · rw [hp]; rfl

/-- C6 witness for the amended theorem: a `.kts`-style text with an
android block written with two spaces, so that none of the eight
markers occurs. -/
def c6wContent : Text := "android  \x7b \x7d".data

theorem c6_hybrid_classification_witness :
    (∀ p ∈ kotlinPatterns, containsSub p c6wContent = false) ∧
    isPureKotlinDsl c6wContent = false ∧
    selectKeyPropertiesCode true (isPureKotlinDsl c6wContent) ("release".data) =
      hybridKeyPropertiesCode ("release".data) ∧
    containsSub ("keystoreProperties[\x27keyAlias\x27]".data)
      (hybridKeyPropertiesCode ("release".data)) = true := by
  have h : ∀ p ∈ kotlinPatterns, containsSub p c6wContent = false := by decide
  obtain ⟨a, b, c, _⟩ := c6_hybrid_classification c6wContent h
  exact ⟨h, a, b, c⟩

/-- C6 counterexample: a `.kts` text containing none of the five
markers the claim lists, yet classified as pure Kotlin DSL (it contains
the further markers `android {` and `buildTypes {`), so the generator
emits the null-checked pure declarative fragments and not the
hybrid-style indexed property access. -/
def c6cxContent : Text := "android \x7b\n    buildTypes \x7b\n".data

theorem c6_counterexample_pure_despite_listed_markers_absent :
    specListedMarkers.all (fun p => !containsSub p c6cxContent) = true ∧
    isPureKotlinDsl c6cxContent = true ∧
    selectKeyPropertiesCode true (isPureKotlinDsl c6cxContent) ("release".data) =
      ktsKeyPropertiesCode ("release".data) ∧
    selectReleaseConfig true (isPureKotlinDsl c6cxContent) ("release".data) =
      ktsReleaseConfig ("release".data) ∧
    containsSub ("findByName".data) (ktsReleaseConfig ("release".data)) = true ∧
    containsSub ("signingConfig signingConfigs.release".data)
      (ktsReleaseConfig ("release".data)) = false := by
  exact ⟨rfl, rfl, rfl, rfl, rfl, rfl⟩

/-- C1 failing input: a variant block containing a nested balanced
brace pair before the existing wiring line. -/
def c1Input : Text :=
  "release \x7b\n    ndk \x7b abiFilters \x7d\n    signingConfig signingConfigs.debug\n\x7d\n".data

/-- What the non-nested source regex extracts from `c1Input`. -/
def c1Cut : Text := "\n    ndk \x7b abiFilters ".data

/-- The brace-balanced contents of the same block. -/
def c1Full : Text :=
  "\n    ndk \x7b abiFilters \x7d\n    signingConfig signingConfigs.debug\n".data

/-- C1: the source locator `release\s*\{([^}]*)\}` cuts the variant
block at the first closing brace, so on a block with a nested balanced
brace pair it returns only the prefix up to the nested block and loses
the `signingConfig` line that the depth-counter scan of the spec
(modelled as `locateVariantContentsSpec`) does return. -/
theorem c1_regex_cuts_at_first_closing_brace :
    searchRelease c1Input = some c1Cut ∧
    locateVariantContentsSpec c1Input = some c1Full ∧
    containsSub ("signingConfig".data) c1Cut = false ∧
    containsSub ("signingConfig".data) c1Full = true := by
  exact ⟨rfl, rfl, rfl, rfl⟩

/-- C5 failing input: a Groovy project whose release block has the
one-character contents `x`, while `x` also occurs both inside the
generated template (`exists`) and in unrelated code `f(x)` outside
both spans. -/
def c5Env : Env :=
  ⟨true, true, false, true, "android \x7b\nrelease \x7bx\x7d\nf(x)\n\x7d\n".data,
    false, [], false, false, []⟩

/-- The text the run writes to disk on the C5 input. -/
def c5Out : Text := (patchPipeline false ("prod".data) c5Env.content).getD []

/-- C5: the splice is `str.replace(release_block, modified_release)`,
which replaces every occurrence of the located contents, not only the
one at the matched span: on `c5Env` the wiring line is inserted at
three places and the unrelated text `f(x)` outside both spans is
destroyed, so the final text does not byte-equal the original outside
the inserted/modified spans. -/
theorem c5_replace_all_alters_text_outside_spans :
    updateAppBuildGradle c5Env ("prod".data) =
      (GradleResult.applied,
        [FOp.readGradle, FOp.writeBackup c5Env.content, FOp.writeGradle c5Out]) ∧
    countOccur ("signingConfig signingConfigs.prod".data) c5Out = 3 ∧
    containsSub ("f(x)".data) c5Env.content = true ∧
    containsSub ("f(x)".data) c5Out = false := by
  exact ⟨rfl, rfl, rfl, rfl⟩
